import Mathlib

/-!
Shallow embedding of the per-entry decoding pipeline of
`src/file-system/src/decompressor/mod.rs` (the `Decompressor` type with its
`try_new` / `decompress` / `file_type` / `to_writer` operations).

Bytes are modelled as `Nat` (each in `0..256`; no arithmetic is performed on
them, only comparisons against literal magic constants, so no overflow
discipline is needed).  Rust control flow that can end in a `panic!`
(out-of-range slice indexing, `Option::unwrap` / `Result::unwrap`, `expect`,
`todo!`) is made explicit by the `RResult.panic` outcome; `?`-propagated
`io::Error`s become `RResult.err`.

External collaborator crates (`flate2`, `oodle_safe`, the `azcs` module, the
`object_stream` and `datasheet` crates, `serde_json` / `quick_xml`) are not
part of this repository's sources; they are modelled as an explicit
`Externals` record of function parameters, exactly at the call interface the
source uses.
-/

set_option autoImplicit false
set_option maxRecDepth 4096

namespace NWTools

/-- Outcome of a Rust computation returning `io::Result<α>`: normal return,
`Err` propagated with `?`, or a panic (slice out of range, `unwrap` on an
error, `todo!`). -/
inductive RResult (α : Type) where
  | ok (a : α)
  | err (e : String)
  | panic
  deriving DecidableEq, Repr

/-- The error payloads the decompressor constructs, as the `io::Error`
messages appearing literally in the source. -/
def unsupportedCodecMsg : String := "CompressionMethod not supported"

/-- Error message built by the `Unsupported(15)` arm: the source maps any
`oodle_safe` error to `io::Error::other(format!("Error with oodle_safe::decompress.",))`,
a fixed string that does not mention the underlying cause. -/
def oodleErrMsg : String := "Error with oodle_safe::decompress."

/-- `read_exact` failing for lack of bytes returns an `UnexpectedEof`
`io::Error` with this standard message. -/
def eofMsg : String := "failed to fill whole buffer"

/-- `zip::CompressionMethod` as consumed by `Decompressor::decompress`:
the source matches `Stored`, `Deflated`, `Unsupported(15)` and a catch-all
`_` arm; `other` stands for every remaining known method of the zip crate
(Bzip2, Zstd, ...), all of which fall into the `_` arm. -/
inductive CompressionMethod where
  | stored
  | deflated
  | unsupported (tag : Nat)
  | other
  deriving DecidableEq, Repr

/-- One archive member as `Decompressor` reads it from `ZipFile`: the
declared uncompressed size (`zip.size()`), the compression method
(`zip.compression()`), and the raw compressed byte stream (what reading
`zip` to the end yields). -/
structure Entry where
  size : Nat
  compression : CompressionMethod
  data : List Nat
  deriving DecidableEq, Repr

/-- `ObjectStreamFormat` from the `cli` crate (variants as used by the
source and enumerated by the configuration interface). -/
inductive ObjectStreamFormat where
  | XML
  | MINI
  | PRETTY
  | BYTES
  deriving DecidableEq, Repr

/-- `DatasheetFormat` from the `cli` crate. -/
inductive DatasheetFormat where
  | MINI
  | PRETTY
  | YAML
  | CSV
  | BYTES
  | XML
  | SQL
  deriving DecidableEq, Repr

/-- The per-kind output format selectors that `file_type` reads from the
process-wide `ARGS.command` (always `Commands::Extract` in the source). -/
structure Config where
  objectstream : ObjectStreamFormat
  datasheet : DatasheetFormat
  deriving DecidableEq, Repr

/-- `FileType` with the variants the source constructs.  The enum itself is
declared in `file-system/src/lib.rs`, outside the sources at hand; variants
`Luac`, `ObjectStream`, `Datasheet` and the use of `FileType::default()`
are taken from `Decompressor::file_type`.  Modelled from the spec: the
remaining payload kinds `Distribution` and `Opaque`, with the classifier's
`otherwise` row mapping to `Opaque`, i.e. `default = Opaque`. -/
inductive FileType where
  | Luac
  | ObjectStream (fmt : ObjectStreamFormat)
  | Datasheet (fmt : DatasheetFormat)
  | Distribution
  | Opaque
  deriving DecidableEq, Repr

/-- Modelled from the spec: `FileType::default()` is the classifier's
`otherwise` arm, `Opaque`. -/
def FileType.default : FileType := FileType.Opaque

/-- What one `to_writer` call copies into the sink: either raw bytes
(`std::io::copy` from a byte slice) or a serialized string
(`string.as_bytes()`). -/
inductive Sink where
  | bytes (data : List Nat)
  | str (s : String)
  deriving DecidableEq, Repr

/-- The external collaborators, parameterised over the (externally defined)
parsed object-stream type `OS` and parsed datasheet type `DS`:

* `zlibDecode` — `flate2::read::ZlibDecoder` driven by `std::io::copy`
  (input: the full stream fed to the decoder; `Except.error` = the
  `io::Error` that `copy` returns on corrupt data);
* `rawInflate` — `flate2::read::DeflateDecoder` likewise;
* `oodle` — `oodle_safe::decompress(src, dst, .., DecodeThreadPhase::All)`
  with `dst` the output buffer pre-sized to the given capacity; the result
  is the bytes it produced, the error its own error value (a `String`
  cause here, since the source discards it);
* `is_azcs` — `azcs::is_azcs` applied to the first four buffer bytes;
* `azcs_decompress` — the two-stage AZCS read: `azcs::decompress(..)`
  returning `none` when constructing the reader fails (the source
  `unwrap`s there), and otherwise the result of `std::io::copy` from that
  reader (`Except.error` = a streaming `io::Error`, propagated with `?`);
* `from_reader` — `object_stream::from_reader(buf, hashes)` with the
  ambient `FILESYSTEM` hash dictionary already bound; `none` = `Err`;
* `xml_serialize` — `XMLObjectStream::from` + `quick_xml` serialization
  (`none` = the `Err` the source `unwrap`s);
* `json_string` / `json_pretty` — `serde_json::to_string(_pretty)` on
  `JSONObjectStream::from` (`none` = the `Err` the source `expect`s);
* `datasheet_try_from` — `Datasheet::try_from(buf)` (`none` = `Err`, which
  the source `unwrap`s);
* `ds_to_json_simd` — `datasheet.to_json_simd(pretty)`, an `io::Result`;
* `ds_to_yaml` / `ds_to_csv` / `ds_to_sql` — infallible serializers. -/
structure Externals (OS DS : Type) where
  zlibDecode : List Nat → Except String (List Nat)
  rawInflate : List Nat → Except String (List Nat)
  oodle : List Nat → Nat → Except String (List Nat)
  is_azcs : List Nat → Bool
  azcs_decompress : List Nat → Option (Except String (List Nat))
  from_reader : List Nat → Option OS
  xml_serialize : OS → Option String
  json_string : OS → Option String
  json_pretty : OS → Option String
  datasheet_try_from : List Nat → Option DS
  ds_to_json_simd : DS → Bool → Except String String
  ds_to_yaml : DS → String
  ds_to_csv : DS → String
  ds_to_sql : DS → String

namespace Decompressor

variable {OS DS : Type}

/-- The five-byte ScriptBytecode (compiled Lua) magic. -/
def luacMagic : List Nat := [0x04, 0x00, 0x1B, 0x4C, 0x75]

/-- The five-byte ObjectStream magic. -/
def objectStreamMagic : List Nat := [0x00, 0x00, 0x00, 0x00, 0x03]

/-- The four-byte Datasheet magic (the source's pattern
`[0x11, 0x00, 0x00, 0x00, _]` wildcards the fifth byte). -/
def datasheetMagic : List Nat := [0x11, 0x00, 0x00, 0x00]

/-- The two-byte zlib header sniffed at the start of a Deflated entry. -/
def zlibHeader : List Nat := [0x78, 0xDA]

/-- The codec dispatch of `Decompressor::decompress` (the
`match self.zip.compression()` expression, lines 58–95): produces the
buffer contents before the AZCS step.

* `Stored`: `std::io::copy(&mut self.zip, &mut self.buf)` — the raw stream.
* `Deflated`: `read_exact` two bytes (an `UnexpectedEof` error if the
  stream is shorter), compare against `[0x78, 0xda]`, then run the zlib or
  raw-DEFLATE decoder over `Cursor::new(bytes).chain(&mut self.zip)` — the
  two consumed bytes chained back in front of the rest, i.e. the full
  original stream.
* `Unsupported(15)`: read the whole stream, call `oodle_safe::decompress`
  with the output buffer pre-sized to `dstCap`, map any error to the fixed
  `oodleErrMsg` message (dropping the cause).
* anything else: the `CompressionMethod not supported` error. -/
def codecStep (E : Externals OS DS) (entry : Entry) (dstCap : Nat) :
    RResult (List Nat) :=
  match entry.compression with
  | .stored => .ok entry.data
  | .deflated =>
      if entry.data.length < 2 then .err eofMsg
      else
        let bytes := entry.data.take 2
        let rest := entry.data.drop 2
        if bytes = zlibHeader then
          match E.zlibDecode (bytes ++ rest) with
          | .ok out => .ok out
          | .error e => .err e
        else
          match E.rawInflate (bytes ++ rest) with
          | .ok out => .ok out
          | .error e => .err e
  | .unsupported tag =>
      if tag = 15 then
        match E.oodle entry.data dstCap with
        | .ok out => .ok out
        | .error _ => .err oodleErrMsg
      else .err unsupportedCodecMsg
  | .other => .err unsupportedCodecMsg

/-- `Decompressor::decompress` (lines 53–108): early-return for a declared
size of zero, codec dispatch, then the AZCS unwrap step.

The AZCS step slices `self.buf[..4]` — a panic when the decoded buffer
holds fewer than four bytes — and, when `is_azcs` accepts the signature,
`unwrap`s `azcs::decompress` (panic on failure) and replaces the buffer
with the copied output (a streaming error propagating as `Err`).
The result is the final `self.buf` contents. -/
def decompress (E : Externals OS DS) (entry : Entry) : RResult (List Nat) :=
  if entry.size = 0 then .ok []
  else
    match codecStep E entry entry.size with
    | .panic => .panic
    | .err e => .err e
    | .ok buf =>
        if buf.length < 4 then .panic
        else if E.is_azcs (buf.take 4) then
          match E.azcs_decompress buf with
          | none => .panic
          | some (.error e) => .err e
          | some (.ok q) => .ok q
        else .ok buf

/-- `Decompressor::try_new` (lines 28–40): stores the zip handle, pre-sizes
`buf` to `zip.size()`, runs `decompress` eagerly and returns the
constructed value — modelled by the final decoded buffer. -/
def try_new (E : Externals OS DS) (entry : Entry) : RResult (List Nat) :=
  decompress E entry

/-- `Decompressor::file_type` (lines 114–130): slices `&self.buf[..5]`
(a panic when the buffer holds fewer than five bytes) and matches the
five-byte signature top-to-bottom:
`luacMagic → Luac`, `objectStreamMagic → ObjectStream(cfg)`,
`[0x11,0,0,0,_] → Datasheet(cfg)`, `_ → FileType::default()`.
The filename is not an input and is never consulted. -/
def file_type (cfg : Config) (buf : List Nat) : RResult FileType :=
  if buf.length < 5 then .panic
  else
    let sig := buf.take 5
    .ok <|
      if sig = luacMagic then .Luac
      else if sig = objectStreamMagic then .ObjectStream cfg.objectstream
      else if sig.take 4 = datasheetMagic then .Datasheet cfg.datasheet
      else FileType.default

/-- `Decompressor::to_writer` (lines 132–220).  Returns the sink contents
together with the side-band `extra` (`Option<Metadata>`, here the parsed
datasheet `DS`):

* `Luac`: copy `&self.buf[2..]`, `extra = None`;
* `ObjectStream(fmt)`: early raw copy and `return Ok(None)` for `BYTES`;
  otherwise run `from_reader`, falling back to a raw copy and `Ok(None)`
  on parse failure; on success serialize per `fmt` (the serializer's
  `Err` is `unwrap`ped/`expect`ed — a panic);
* `Datasheet(fmt)`: `Datasheet::try_from(buf).unwrap()` — a panic on parse
  failure; on success set `extra = Some(..)` then serialize per `fmt`
  (`to_json_simd` errors propagate with `?`, `XML` is `todo!()` — a
  panic, `BYTES` copies the raw buffer);
* anything else: copy the raw buffer, `extra = None`. -/
def to_writer (E : Externals OS DS) (cfg : Config) (buf : List Nat) :
    RResult (Sink × Option DS) :=
  match file_type cfg buf with
  | .panic => .panic
  | .err e => .err e
  | .ok ft =>
    match ft with
    | .Luac => .ok (.bytes (buf.drop 2), none)
    | .ObjectStream fmt =>
        if fmt = .BYTES then .ok (.bytes buf, none)
        else
          match E.from_reader buf with
          | none => .ok (.bytes buf, none)
          | some os =>
            match fmt with
            | .XML =>
                match E.xml_serialize os with
                | none => .panic
                | some s => .ok (.str s, none)
            | .MINI =>
                match E.json_string os with
                | none => .panic
                | some s => .ok (.str s, none)
            | .PRETTY =>
                match E.json_pretty os with
                | none => .panic
                | some s => .ok (.str s, none)
            | .BYTES => .ok (.bytes buf, none)
    | .Datasheet fmt =>
        match E.datasheet_try_from buf with
        | none => .panic
        | some ds =>
          match fmt with
          | .MINI =>
              match E.ds_to_json_simd ds false with
              | .error e => .err e
              | .ok s => .ok (.str s, some ds)
          | .PRETTY =>
              match E.ds_to_json_simd ds true with
              | .error e => .err e
              | .ok s => .ok (.str s, some ds)
          | .YAML => .ok (.str (E.ds_to_yaml ds), some ds)
          | .CSV => .ok (.str (E.ds_to_csv ds), some ds)
          | .BYTES => .ok (.bytes buf, some ds)
          | .XML => .panic
          | .SQL => .ok (.str (E.ds_to_sql ds), some ds)
    | .Distribution => .ok (.bytes buf, none)
    | .Opaque => .ok (.bytes buf, none)

/-- A fully concrete instantiation of the external collaborators, used to
evaluate the pipeline on closed inputs: every decoder is the identity on
the byte stream, `is_azcs` rejects everything, all serializers succeed. -/
def trivialExternals : Externals Unit Unit where
  zlibDecode := fun l => .ok l
  rawInflate := fun l => .ok l
  oodle := fun l _ => .ok l
  is_azcs := fun _ => false
  azcs_decompress := fun l => some (.ok l)
  from_reader := fun _ => some ()
  xml_serialize := fun _ => some "xml"
  json_string := fun _ => some "json"
  json_pretty := fun _ => some "json-pretty"
  datasheet_try_from := fun _ => some ()
  ds_to_json_simd := fun _ _ => .ok "ds-json"
  ds_to_yaml := fun _ => "ds-yaml"
  ds_to_csv := fun _ => "ds-csv"
  ds_to_sql := fun _ => "ds-sql"

/-- A concrete configuration for closed evaluations. -/
def cfg0 : Config := ⟨ObjectStreamFormat.PRETTY, DatasheetFormat.MINI⟩

/-- Externals whose structural parsers (`object_stream::from_reader`,
`Datasheet::try_from`) reject every input, modelling a corrupt payload
body. -/
def failParserExternals : Externals Unit Unit :=
  { trivialExternals with
      from_reader := fun _ => none
      datasheet_try_from := fun _ => none }

/-- Externals whose AZCS predicate accepts the ASCII signature
`41 5A 43 53` and whose AZCS decoder yields the single byte `[7]`,
modelling a payload that is a valid AZCS envelope over different
content. -/
def azcsExternals : Externals Unit Unit :=
  { trivialExternals with
      is_azcs := fun sig => sig = [0x41, 0x5A, 0x43, 0x53]
      azcs_decompress := fun _ => some (.ok [7]) }

/-- Externals whose Oodle decompressor fails with the cause "cause A". -/
def oodleFailA : Externals Unit Unit :=
  { trivialExternals with oodle := fun _ _ => .error "cause A" }

/-- Externals whose Oodle decompressor fails with the distinct cause
"cause B". -/
def oodleFailB : Externals Unit Unit :=
  { trivialExternals with oodle := fun _ _ => .error "cause B" }

/-! ## Helper lemmas -/

theorem length_ge_of_take5 {buf m : List Nat} (h : buf.take 5 = m)
    (hm : m.length = 5) : ¬ buf.length < 5 := by
  have hlen := congrArg List.length h
  rw [List.length_take, hm] at hlen
  omega

theorem take4_take5 (buf : List Nat) : (buf.take 5).take 4 = buf.take 4 := by
  rw [List.take_take]
  norm_num

/-- Reduction of `file_type` at a buffer carrying the Datasheet magic. -/
theorem file_type_eq_datasheet (cfg : Config) (buf : List Nat)
    (hlen : ¬ buf.length < 5) (hmagic : buf.take 4 = datasheetMagic) :
    file_type cfg buf = .ok (.Datasheet cfg.datasheet) := by
  have ht := take4_take5 buf
  have hl1 : buf.take 5 ≠ luacMagic := by
    intro hc
    have : luacMagic.take 4 = datasheetMagic := by rw [← hc, ht, hmagic]
    exact absurd this (by decide)
  have hl2 : buf.take 5 ≠ objectStreamMagic := by
    intro hc
    have : objectStreamMagic.take 4 = datasheetMagic := by rw [← hc, ht, hmagic]
    exact absurd this (by decide)
  unfold file_type
  simp [hlen, hl1, hl2, ht, hmagic]

/-- Inversion: `file_type` only produces `Datasheet` carrying the
configured format. -/
theorem file_type_datasheet_fmt {cfg : Config} {buf : List Nat}
    {fmt : DatasheetFormat} (h : file_type cfg buf = .ok (.Datasheet fmt)) :
    fmt = cfg.datasheet := by
  unfold file_type at h
  split at h
  · exact absurd h (by simp)
  · simp only [RResult.ok.injEq] at h
    split at h
    · exact absurd h (by simp)
    · split at h
      · exact absurd h (by simp)
      · split at h
        · exact ((FileType.Datasheet.injEq _ _).mp h).symm
        · exact absurd h (by simp [FileType.default])

/-! ## Claim theorems -/

/-- Claim C1 (the code evaluated at the failing input): a buffer carrying
the Datasheet magic whose body the datasheet parser rejects makes
`to_writer` panic — `Datasheet::try_from(..).unwrap()` — instead of
falling back to a byte-for-byte copy with `Ok(None)`. -/
theorem C1_datasheet_parse_failure_panics :
    to_writer failParserExternals cfg0 [0x11, 0x00, 0x00, 0x00, 0x00] =
      .panic := rfl

/-- Claim C2: for every entry whose decoded buffer carries the
ObjectStream magic but whose body `object_stream::from_reader` rejects,
`to_writer` writes exactly the raw decoded buffer to the sink and returns
`Ok(None)` — whatever output format is configured. -/
theorem C2_objectstream_parse_failure_passthrough {OS DS : Type}
    (E : Externals OS DS) (cfg : Config) (buf : List Nat)
    (hmagic : buf.take 5 = objectStreamMagic)
    (hfail : E.from_reader buf = none) :
    to_writer E cfg buf = .ok (.bytes buf, none) := by
  have hlen : ¬ buf.length < 5 := length_ge_of_take5 hmagic (by decide)
  obtain ⟨osFmt, dsFmt⟩ := cfg
  unfold to_writer file_type
  cases osFmt <;>
    simp [hlen, hmagic, hfail, objectStreamMagic, luacMagic, datasheetMagic]

/-- Witness for C2 at a concrete corrupt object stream. -/
theorem C2_objectstream_parse_failure_passthrough_witness :
    to_writer failParserExternals cfg0 [0x00, 0x00, 0x00, 0x00, 0x03] =
      .ok (.bytes [0x00, 0x00, 0x00, 0x00, 0x03], none) :=
  C2_objectstream_parse_failure_passthrough failParserExternals cfg0 _
    (by decide) rfl

/-- Claim C3 (amended): the classifier's arms are evaluated top-to-bottom
over the five-byte prefix with first match winning; a buffer matching
none of the three magics is classified as the default kind, `Opaque`.
The filename is not an input of `file_type` and is never consulted, so
this holds for `.distribution` files as well. -/
theorem C3_classifier_order (cfg : Config) (buf : List Nat)
    (hlen : 5 ≤ buf.length) :
    (buf.take 5 = luacMagic → file_type cfg buf = .ok .Luac) ∧
    (buf.take 5 ≠ luacMagic → buf.take 5 = objectStreamMagic →
      file_type cfg buf = .ok (.ObjectStream cfg.objectstream)) ∧
    (buf.take 5 ≠ luacMagic → buf.take 5 ≠ objectStreamMagic →
      buf.take 4 = datasheetMagic →
      file_type cfg buf = .ok (.Datasheet cfg.datasheet)) ∧
    (buf.take 5 ≠ luacMagic → buf.take 5 ≠ objectStreamMagic →
      buf.take 4 ≠ datasheetMagic → file_type cfg buf = .ok .Opaque) := by
  have hl : ¬ buf.length < 5 := by omega
  have ht := take4_take5 buf
  refine ⟨fun h1 => ?_, fun h1 h2 => ?_, fun h1 h2 h3 => ?_, fun h1 h2 h3 => ?_⟩
  · unfold file_type
    simp [hl, h1]
  · unfold file_type
    simp [hl, h1, h2, objectStreamMagic, luacMagic]
  · unfold file_type
    simp [hl, h1, h2, ht, h3]
  · unfold file_type
    simp [hl, h1, h2, ht, h3, FileType.default]

/-- Witness for C3 at a concrete unmatched prefix. -/
theorem C3_classifier_order_witness :
    file_type cfg0 [9, 9, 9, 9, 9] = .ok .Opaque :=
  (C3_classifier_order cfg0 [9, 9, 9, 9, 9] (by decide)).2.2.2
    (by decide) (by decide) (by decide)

/-- Counterexample for claim C3 as stated: at a buffer matching none of
the three magics the classifier yields `Opaque` (the `FileType::default()`
arm), never `Distribution` — and since the filename is not an input of
`file_type`, this is so in particular for a file named `*.distribution`. -/
theorem C3_distribution_counterexample :
    file_type cfg0 [1, 1, 1, 1, 1] = .ok FileType.Opaque ∧
    (RResult.ok FileType.Opaque ≠ RResult.ok FileType.Distribution) :=
  ⟨rfl, by decide⟩

/-- Claim C4 (the code evaluated at the failing inputs): `file_type` on
the empty buffer of a zero-size entry panics at the `&self.buf[..5]`
slice, and `decompress` on a three-byte Stored entry panics at the
`self.buf[..4]` slice of the AZCS check — short input panics instead of
producing an error value. -/
theorem C4_short_input_panics :
    file_type cfg0 [] = .panic ∧
    decompress trivialExternals ⟨3, .stored, [1, 2, 3]⟩ = .panic :=
  ⟨rfl, rfl⟩

/-- Claim C5: for a Deflate entry with at least two bytes in the stream,
the codec dispatch reads the first two bytes, decodes as zlib exactly
when they are `78 DA` and as raw DEFLATE otherwise, and in both cases
hands the decoder the full original stream — the two peeked bytes chained
back in front of the remainder. -/
theorem C5_deflate_sniff {OS DS : Type} (E : Externals OS DS)
    (entry : Entry) (cap : Nat) (hc : entry.compression = .deflated)
    (hlen : 2 ≤ entry.data.length) :
    codecStep E entry cap =
      (if entry.data.take 2 = zlibHeader then
        match E.zlibDecode entry.data with
        | .ok out => .ok out
        | .error e => .err e
      else
        match E.rawInflate entry.data with
        | .ok out => .ok out
        | .error e => .err e) := by
  unfold codecStep
  rw [hc]
  simp [Nat.not_lt.mpr hlen, List.take_append_drop]

/-- Witness for C5 at a concrete zlib-headed stream. -/
theorem C5_deflate_sniff_witness :
    codecStep trivialExternals ⟨3, .deflated, [0x78, 0xDA, 0x05]⟩ 3 =
      .ok [0x78, 0xDA, 0x05] := by
  rw [C5_deflate_sniff trivialExternals ⟨3, .deflated, [0x78, 0xDA, 0x05]⟩ 3
    rfl (by decide)]
  decide

/-- Claim C6 (amended): for a Proprietary-15 entry, the entire compressed
stream is handed to the external Oodle decompressor together with the
declared uncompressed size as the output capacity (the capacity
`decompress` passes down), and any Oodle error is translated into the
fixed `CodecError` message `oodleErrMsg`; the cause is discarded. -/
theorem C6_oodle_arm {OS DS : Type} (E : Externals OS DS) (entry : Entry)
    (hc : entry.compression = .unsupported 15) :
    codecStep E entry entry.size =
      (match E.oodle entry.data entry.size with
       | .ok out => .ok out
       | .error _ => .err oodleErrMsg) := by
  unfold codecStep
  rw [hc]
  simp

/-- Witness for C6 at a concrete Proprietary-15 entry. -/
theorem C6_oodle_arm_witness :
    codecStep trivialExternals ⟨4, .unsupported 15, [9, 9]⟩ 4 = .ok [9, 9] :=
  (C6_oodle_arm trivialExternals ⟨4, .unsupported 15, [9, 9]⟩ rfl).trans
    (by decide)

/-- Counterexample for claim C6 as stated: two runs differing only in the
Oodle error cause produce the identical fixed `CodecError` — the cause is
not carried. -/
theorem C6_cause_discarded :
    codecStep oodleFailA ⟨4, .unsupported 15, [1, 2, 3]⟩ 4 =
      .err oodleErrMsg ∧
    codecStep oodleFailB ⟨4, .unsupported 15, [1, 2, 3]⟩ 4 =
      .err oodleErrMsg :=
  ⟨rfl, rfl⟩

/-- Claim C7 (amended): for a Stored entry whose payload `P` holds at
least four bytes and whose head the AZCS predicate rejects, the decoded
buffer is exactly `P`. -/
theorem C7_stored_identity {OS DS : Type} (E : Externals OS DS)
    (P : List Nat) (hlen : 4 ≤ P.length)
    (hazcs : E.is_azcs (P.take 4) = false) :
    decompress E ⟨P.length, .stored, P⟩ = .ok P := by
  have h0 : P.length ≠ 0 := by omega
  unfold decompress codecStep
  simp [h0, Nat.not_lt.mpr hlen, hazcs]

/-- Witness for C7 at a concrete four-byte Stored payload. -/
theorem C7_stored_identity_witness :
    decompress trivialExternals ⟨4, .stored, [1, 2, 3, 4]⟩ =
      .ok [1, 2, 3, 4] :=
  C7_stored_identity trivialExternals [1, 2, 3, 4] (by decide) rfl

/-- Counterexample for claim C7 as stated: a three-byte Stored payload
makes `decompress` panic at the `buf[..4]` slice (before any external
collaborator is consulted), and a Stored payload forming an AZCS envelope
is replaced by the envelope's content — in neither case does the decoded
buffer equal the payload. -/
theorem C7_stored_identity_counterexample :
    decompress trivialExternals ⟨3, .stored, [5, 6, 7]⟩ = .panic ∧
    decompress azcsExternals ⟨4, .stored, [0x41, 0x5A, 0x43, 0x53]⟩ =
      .ok [7] ∧
    RResult.ok [7] ≠ RResult.ok [0x41, 0x5A, 0x43, 0x53] :=
  ⟨rfl, by decide, by decide⟩

/-- Claim C8: every buffer carrying the ScriptBytecode magic is written
to the sink as the buffer with its two leading bytes removed, side-band
`None`; the result is independent of every external decoder, i.e. no
decoding is performed. -/
theorem C8_luac_strip {OS DS : Type} (E : Externals OS DS) (cfg : Config)
    (buf : List Nat) (hmagic : buf.take 5 = luacMagic) :
    to_writer E cfg buf = .ok (.bytes (buf.drop 2), none) := by
  have hlen : ¬ buf.length < 5 := length_ge_of_take5 hmagic (by decide)
  unfold to_writer file_type
  simp [hlen, hmagic, luacMagic]

/-- Witness for C8 at a concrete bytecode entry. -/
theorem C8_luac_strip_witness :
    to_writer trivialExternals cfg0 [0x04, 0x00, 0x1B, 0x4C, 0x75, 0x09] =
      .ok (.bytes [0x1B, 0x4C, 0x75, 0x09], none) :=
  C8_luac_strip trivialExternals cfg0 _ (by decide)

/-- Claim C9 (amended): among `to_writer` calls that return `Ok`, the
side-band is `Some` exactly when the buffer was classified `Datasheet`
and the datasheet parser succeeded — whatever format is configured,
including `Bytes`; ObjectStream entries (including the `Bytes` format)
and all other kinds return `None`.  (With the `XML` datasheet format, or
a failed datasheet parse, `to_writer` panics instead of returning.) -/
theorem C9_sideband_iff_datasheet {OS DS : Type} (E : Externals OS DS)
    (cfg : Config) (buf : List Nat) (out : Sink) (extra : Option DS)
    (h : to_writer E cfg buf = .ok (out, extra)) :
    extra.isSome ↔
      (file_type cfg buf = .ok (.Datasheet cfg.datasheet) ∧
        (E.datasheet_try_from buf).isSome) := by
  unfold to_writer at h
  repeat' split at h
  all_goals try simp_all
  all_goals exact fun _ => file_type_datasheet_fmt (by assumption)

/-- Witness for C9 at a concrete, successfully parsed datasheet rendered
as compact JSON. -/
theorem C9_sideband_iff_datasheet_witness :
    (some () : Option Unit).isSome ↔
      (file_type cfg0 [0x11, 0, 0, 0, 1] = .ok (.Datasheet cfg0.datasheet) ∧
        (trivialExternals.datasheet_try_from [0x11, 0, 0, 0, 1]).isSome) :=
  C9_sideband_iff_datasheet trivialExternals cfg0 [0x11, 0, 0, 0, 1]
    (.str "ds-json") (some ()) (by decide)

/-- Counterexample for claim C9 as stated: with the `XML` datasheet
format configured and a body the parser accepts, `to_writer` does not
return `Some(Datasheet)` — it panics and returns nothing at all, so the
side-band is not delivered "regardless of the selected output format". -/
theorem C9_sideband_counterexample :
    to_writer trivialExternals ⟨ObjectStreamFormat.PRETTY, DatasheetFormat.XML⟩
      [0x11, 0, 0, 0, 1] = .panic := rfl

/-- Claim C10 (amended): with the `XML` datasheet format configured, an
entry classified `Datasheet` whose body parses successfully drives
`to_writer` into `todo!()` — a panic; no output is written and no error
value (such as `Unimplemented`) is returned to the caller. -/
theorem C10_datasheet_xml_todo {OS DS : Type} (E : Externals OS DS)
    (cfg : Config) (buf : List Nat) (ds : DS)
    (hxml : cfg.datasheet = .XML) (hlen : 5 ≤ buf.length)
    (hmagic : buf.take 4 = datasheetMagic)
    (hparse : E.datasheet_try_from buf = some ds) :
    to_writer E cfg buf = .panic := by
  have hft := file_type_eq_datasheet cfg buf (by omega) hmagic
  unfold to_writer
  rw [hft, hxml]
  simp [hparse]

/-- Witness for C10 at a concrete parsed datasheet under the XML
format. -/
theorem C10_datasheet_xml_todo_witness :
    to_writer trivialExternals ⟨ObjectStreamFormat.MINI, DatasheetFormat.XML⟩
      [0x11, 0, 0, 0, 3] = .panic :=
  C10_datasheet_xml_todo trivialExternals
    ⟨ObjectStreamFormat.MINI, DatasheetFormat.XML⟩ [0x11, 0, 0, 0, 3] ()
    rfl (by decide) (by decide) rfl

/-- Counterexample for claim C10 as stated: at a concrete, successfully
parsing datasheet with the `XML` format configured, `to_writer` does not
surface an error value to the caller — it panics (`todo!()`). -/
theorem C10_datasheet_xml_counterexample :
    to_writer trivialExternals ⟨ObjectStreamFormat.MINI, DatasheetFormat.XML⟩
      [0x11, 0, 0, 0, 2] = .panic := rfl

end Decompressor

end NWTools
